import Mathlib

/-!
# Galaxy collision scene: point-cloud generator and per-frame animator

A shallow embedding of `src/script.js`.

Numbers are the elements of a linearly ordered field `α` (exact arithmetic, no rounding);
at `α = ℝ` the library functions are the mathematical ones.  The functions of the
JavaScript `Math` object and the `THREE.Color` constructor, which the script calls but does
not define, are gathered in the record `Lib`.  `Math.random()` is a stream `rand : ℕ → α`
together with a cursor counting the draws already consumed.
-/

set_option autoImplicit false

namespace Galaxy

/-! ## Data model -/

/-- The `THREE.Vector3` fields the script reads and writes. -/
structure Vector3 (α : Type) where
  x : α
  y : α
  z : α

/-- The `THREE.Euler` angles of an object's `rotation`. -/
structure Euler (α : Type) where
  x : α
  y : α
  z : α

/-- The `THREE.Color` channels. -/
structure Color (α : Type) where
  r : α
  g : α
  b : α

/-- Library functions the script calls: `Math.cos`, `Math.sin`, `Math.pow`, `Math.sqrt`
(through `Vector3.distanceTo`), `Math.PI` and `new THREE.Color(style)`. -/
structure Lib (α : Type) where
  cos : α → α
  sin : α → α
  pow : α → α → α
  sqrt : α → α
  PI : α
  Color : String → Color α

/-- The parameter bag `parameters` (lines 16-25). -/
structure GalaxyParameters (α : Type) where
  count : Nat
  size : α
  radius : α
  branches : Nat
  spin : α
  randomness : α
  randomnessPower : α
  insideColor : String
  outsideColor : String

/-- A `THREE.Points` object as far as the script uses it: `id` is the object identity
(three.js numbers every `Object3D` from a global counter), `positions` and `colors` are the
arrays of `geometry.attributes.position` and `geometry.attributes.color`, `size` is
`material.size`, `position` and `rotation` are the object transform. -/
structure Points (α : Type) where
  id : Nat
  positions : List α
  colors : List α
  size : α
  position : Vector3 α
  rotation : Euler α

variable {α : Type} [LinearOrderedField α]

/-- The global `parameters` of lines 16-25. -/
def parameters : GalaxyParameters α where
  count := 100000
  size := 0.01
  radius := 16.07
  branches := 3
  spin := 1
  randomness := 0.2
  randomnessPower := 3
  insideColor := "#ff6030"
  outsideColor := "#1b3984"

/-- The global `parameters2` of lines 28-30: a copy of `parameters` with two fields
replaced. -/
def parameters2 : GalaxyParameters α :=
  { (parameters : GalaxyParameters α) with insideColor := "#30ff60", outsideColor := "#841b39" }

/-! ## Point-cloud generator (lines 35-74) -/

/-- The three.js `Color.lerp(color, alpha)`: every channel moves by `alpha` of its gap. -/
def Color.lerp (c color : Color α) (alpha : α) : Color α :=
  ⟨c.r + (color.r - c.r) * alpha, c.g + (color.g - c.g) * alpha,
    c.b + (color.b - c.b) * alpha⟩

/-- The values computed by one iteration of the loop of `generateGalaxy` (lines 44-56) for
particle `i`, when `c` draws of `Math.random()` have been consumed before it: the position
triple and the mixed colour.  The seven draws are taken in evaluation order. -/
def particle (M : Lib α) (rand : ℕ → α) (xOffset : α) (p : GalaxyParameters α)
    (c i : ℕ) : Vector3 α × Color α :=
  let radius := rand c * p.radius
  let spinAngle := radius * p.spin
  let branchAngle := ((i % p.branches : ℕ) : α) / (p.branches : α) * M.PI * 2
  let randomX := M.pow (rand (c + 1)) p.randomnessPower
    * (if rand (c + 2) < 0.5 then 1 else -1) * p.randomness * radius
  let randomY := M.pow (rand (c + 3)) p.randomnessPower
    * (if rand (c + 4) < 0.5 then 1 else -1) * p.randomness * radius
  let randomZ := M.pow (rand (c + 5)) p.randomnessPower
    * (if rand (c + 6) < 0.5 then 1 else -1) * p.randomness * radius
  let mixedColor := (M.Color p.insideColor).lerp (M.Color p.outsideColor) (radius / p.radius)
  (⟨M.cos (branchAngle + spinAngle) * radius + randomX + xOffset, randomY,
      M.sin (branchAngle + spinAngle) * radius + randomZ⟩, mixedColor)

/-- One iteration of the loop of lines 42-60 on the loop state (positions, colors, draws
consumed).  A typed-array store at an index outside the array is dropped, which is what
`List.set` does. -/
def generateStep (M : Lib α) (rand : ℕ → α) (xOffset : α) (p : GalaxyParameters α)
    (st : List α × List α × ℕ) (i : ℕ) : List α × List α × ℕ :=
  let i3 := i * 3
  let v := (particle M rand xOffset p st.2.2 i).1
  let mixedColor := (particle M rand xOffset p st.2.2 i).2
  (((st.1.set i3 v.x).set (i3 + 1) v.y).set (i3 + 2) v.z,
    ((st.2.1.set i3 mixedColor.r).set (i3 + 1) mixedColor.g).set (i3 + 2) mixedColor.b,
    st.2.2 + 7)

/-- The loop of lines 42-60 started on two zero-filled arrays of `count * 3` entries
(`new Float32Array(galaxyParams.count * 3)`). -/
def generateBuffers (M : Lib α) (rand : ℕ → α) (xOffset : α) (p : GalaxyParameters α)
    (cursor : ℕ) : List α × List α × ℕ :=
  (List.range p.count).foldl (generateStep M rand xOffset p)
    (List.replicate (p.count * 3) 0, List.replicate (p.count * 3) 0, cursor)

/-- The function `generateGalaxy(xOffset, galaxyParams)`: returns the new `THREE.Points`
(numbered `nextId`, at the default position and rotation of a new object) and the number of
random draws consumed so far. -/
def generateGalaxy (M : Lib α) (rand : ℕ → α) (nextId cursor : ℕ) (xOffset : α)
    (galaxyParams : GalaxyParameters α) : Points α × ℕ :=
  let r := generateBuffers M rand xOffset galaxyParams cursor
  ({ id := nextId, positions := r.1, colors := r.2.1, size := galaxyParams.size,
     position := ⟨0, 0, 0⟩, rotation := ⟨0, 0, 0⟩ }, r.2.2)

/-- The position triple of particle `i` of a generation started at draw `cursor`
(iteration `i` starts after `7 * i` further draws). -/
def positionTriple (M : Lib α) (rand : ℕ → α) (xOffset : α) (p : GalaxyParameters α)
    (cursor i : ℕ) : List α :=
  [(particle M rand xOffset p (cursor + 7 * i) i).1.x,
   (particle M rand xOffset p (cursor + 7 * i) i).1.y,
   (particle M rand xOffset p (cursor + 7 * i) i).1.z]

/-- The colour triple of particle `i` of a generation started at draw `cursor`. -/
def colorTriple (M : Lib α) (rand : ℕ → α) (xOffset : α) (p : GalaxyParameters α)
    (cursor i : ℕ) : List α :=
  [(particle M rand xOffset p (cursor + 7 * i) i).2.r,
   (particle M rand xOffset p (cursor + 7 * i) i).2.g,
   (particle M rand xOffset p (cursor + 7 * i) i).2.b]

/-! ## Vectors and buffer attributes (three.js) -/

/-- The three.js `Vector3.distanceToSquared`. -/
def Vector3.distanceToSquared (a v : Vector3 α) : α :=
  (a.x - v.x) * (a.x - v.x) + (a.y - v.y) * (a.y - v.y) + (a.z - v.z) * (a.z - v.z)

/-- The three.js `Vector3.distanceTo`: `Math.sqrt(this.distanceToSquared(v))`. -/
def Vector3.distanceTo (M : Lib α) (a v : Vector3 α) : α :=
  M.sqrt (a.distanceToSquared v)

/-- The three.js `Vector3.lerp(v, alpha)`. -/
def Vector3.lerp (a v : Vector3 α) (alpha : α) : Vector3 α :=
  ⟨a.x + (v.x - a.x) * alpha, a.y + (v.y - a.y) * alpha, a.z + (v.z - a.z) * alpha⟩

/-- The three.js `Vector3.add(v)`. -/
def Vector3.add (a v : Vector3 α) : Vector3 α :=
  ⟨a.x + v.x, a.y + v.y, a.z + v.z⟩

/-- The flat indices of particle `i` in a buffer of item size 3: the ones `getX`, `getY`,
`getZ` read and `setXYZ` writes. -/
def particleIndices (i : ℕ) : List ℕ :=
  [i * 3, i * 3 + 1, i * 3 + 2]

/-- Particle `i` lies within the buffer `array`: all three of its flat indices do. -/
def inBounds (array : List α) (i : ℕ) : Prop :=
  ∀ j ∈ particleIndices i, j < array.length

/-- The three.js `Vector3.fromBufferAttribute(attribute, i)`.  A read past the end of the
array gives `undefined` in JavaScript; here it gives 0.  The script stores a value read at
an index only back at that same index, where a store past the end is dropped, so the
stand-in never reaches a buffer. -/
def fromBufferAttribute (array : List α) (i : ℕ) : Vector3 α :=
  ⟨array.getD (i * 3) 0, array.getD (i * 3 + 1) 0, array.getD (i * 3 + 2) 0⟩

/-- The three.js `BufferAttribute.setXYZ(i, x, y, z)`; a store past the end is dropped. -/
def setXYZ (array : List α) (i : ℕ) (v : Vector3 α) : List α :=
  ((array.set (i * 3) v.x).set (i * 3 + 1) v.y).set (i * 3 + 2) v.z

/-- The three.js `BufferAttribute.count`: `array.length / itemSize`, a JavaScript number. -/
def count (array : List α) : α :=
  (array.length : α) / 3

/-- The values `i` taken by `for (let i = 0; i < attribute.count; i++)`: the naturals
below `count`, in increasing order (none of them reaches `array.length`). -/
def loopIndices (array : List α) : List ℕ :=
  (List.range array.length).filter (fun i => (i : α) < count array)

/-- The module-level state of the script: the variables `galaxy1` and `galaxy2` (`none` is
`null`), the children of `scene` by identity, the owners of the geometries and materials
already disposed, the object counter, the number of `Math.random()` draws consumed, and
`camera.position`. -/
structure State (α : Type) where
  galaxy1 : Option (Points α)
  galaxy2 : Option (Points α)
  scene : List ℕ
  disposedGeometries : List ℕ
  disposedMaterials : List ℕ
  nextId : ℕ
  cursor : ℕ
  camera : Vector3 α

/-- State at module load, before `createGalaxies()` of line 101; the camera is where lines
162-164 put it. -/
def initial : State α where
  galaxy1 := none
  galaxy2 := none
  scene := []
  disposedGeometries := []
  disposedMaterials := []
  nextId := 0
  cursor := 0
  camera := ⟨0, 3, 30⟩

/-- The three.js `Object3D.add(object)`: detach the object from its parent, then push it. -/
def sceneAdd (scene : List ℕ) (id : ℕ) : List ℕ :=
  scene.erase id ++ [id]

/-- The guarded block of lines 77-81 (and 83-87): when the variable is not `null`, dispose
its geometry and material and remove the object from the scene. -/
def release (s : State α) (galaxy : Option (Points α)) : State α :=
  match galaxy with
  | some g =>
    { s with disposedGeometries := g.id :: s.disposedGeometries,
             disposedMaterials := g.id :: s.disposedMaterials,
             scene := s.scene.erase g.id }
  | none => s

/-- The function `createGalaxies()` (lines 76-99). -/
def createGalaxies (M : Lib α) (rand : ℕ → α) (s : State α) : State α :=
  let s1 := release s s.galaxy1
  let s2 := release s1 s.galaxy2
  let r1 := generateGalaxy M rand s2.nextId s2.cursor (-20) parameters
  let r2 := generateGalaxy M rand (s2.nextId + 1) r1.2 20 parameters2
  let galaxy1 := r1.1
  let galaxy2 := { r2.1 with rotation := ⟨M.PI / 4, M.PI / 4, M.PI / 4⟩ }
  { s2 with galaxy1 := some galaxy1, galaxy2 := some galaxy2,
            scene := sceneAdd (sceneAdd s2.scene galaxy1.id) galaxy2.id,
            nextId := s2.nextId + 2, cursor := r2.2 }

/-- Calls of `createGalaxies()` in succession. -/
def createGalaxiesTimes (M : Lib α) (rand : ℕ → α) : ℕ → State α → State α
  | 0, s => s
  | k + 1, s => createGalaxies M rand (createGalaxiesTimes M rand k s)

/-- Body of the first loop (lines 199-207) on one position array: read particle `i`, lerp
it 1% toward the origin, store it back. -/
def lerpParticle (array : List α) (i : ℕ) : List α :=
  setXYZ array i ((fromBufferAttribute array i).lerp ⟨0, 0, 0⟩ 0.01)

/-- One iteration of the first loop on both position arrays. -/
def lerpStep (st : List α × List α) (i : ℕ) : List α × List α :=
  (lerpParticle st.1 i, lerpParticle st.2 i)

/-- The first loop (lines 198-208); its bound is the count of galaxy1. -/
def lerpPass (positions1 positions2 : List α) : List α × List α :=
  (loopIndices positions1).foldl lerpStep (positions1, positions2)

/-- The vector `(Math.random() * 0.1 - 0.05, ...)` of lines 216 and 218, from the three
draws starting at `c`. -/
def jitter (rand : ℕ → α) (c : ℕ) : Vector3 α :=
  ⟨rand c * 0.1 - 0.05, rand (c + 1) * 0.1 - 0.05, rand (c + 2) * 0.1 - 0.05⟩

/-- One iteration of the second loop (lines 212-221) on both position arrays and the draw
cursor: three draws for galaxy1, then three for galaxy2. -/
def jitterStep (rand : ℕ → α) (st : List α × List α × ℕ) (i : ℕ) : List α × List α × ℕ :=
  (setXYZ st.1 i ((fromBufferAttribute st.1 i).add (jitter rand st.2.2)),
   setXYZ st.2.1 i ((fromBufferAttribute st.2.1 i).add (jitter rand (st.2.2 + 3))),
   st.2.2 + 6)

/-- The second loop (lines 211-222); its bound is again the count of galaxy1. -/
def jitterPass (rand : ℕ → α) (positions1 positions2 : List α) (cursor : ℕ) :
    List α × List α × ℕ :=
  (loopIndices positions1).foldl (jitterStep rand) (positions1, positions2, cursor)

/-- The test of line 191 (and of line 233) on two galaxy objects. -/
def colliding (M : Lib α) (galaxy1 galaxy2 : Points α) : Prop :=
  galaxy1.position.distanceTo M galaxy2.position < 10

instance (M : Lib α) (galaxy1 galaxy2 : Points α) : Decidable (colliding M galaxy1 galaxy2) :=
  inferInstanceAs (Decidable (_ < _))

/-- Lines 191-230 on the two galaxy objects and the draw cursor. -/
def animate (M : Lib α) (rand : ℕ → α) (galaxy1 galaxy2 : Points α) (cursor : ℕ) :
    Points α × Points α × ℕ :=
  if colliding M galaxy1 galaxy2 then
    let l := lerpPass galaxy1.positions galaxy2.positions
    let j := jitterPass rand l.1 l.2 cursor
    ({ galaxy1 with rotation := { galaxy1.rotation with y := galaxy1.rotation.y + 0.005 },
                    positions := j.1 },
     { galaxy2 with rotation := { galaxy2.rotation with y := galaxy2.rotation.y - 0.005 },
                    positions := j.2.1 },
     j.2.2)
  else
    ({ galaxy1 with rotation := { galaxy1.rotation with y := galaxy1.rotation.y + 0.005 } },
     { galaxy2 with rotation := { galaxy2.rotation with y := galaxy2.rotation.y + 0.005 } },
     cursor)

/-- Lines 233-236: the camera dolly. -/
def dolly (M : Lib α) (galaxy1 galaxy2 : Points α) (camera : Vector3 α) : Vector3 α :=
  if colliding M galaxy1 galaxy2 ∧ camera.z > 20 then camera.lerp ⟨0, 3, 20⟩ 0.01 else camera

/-- One frame of `tick()`, lines 186-236: `none` is the `TypeError` of dereferencing a
`null` galaxy.  The calls of lines 238-241 hand the frame to the orbit controls, the
renderer and the scheduler, which are not part of the script. -/
def tick (M : Lib α) (rand : ℕ → α) (s : State α) : Option (State α) :=
  match s.galaxy1, s.galaxy2 with
  | some galaxy1, some galaxy2 =>
    let a := animate M rand galaxy1 galaxy2 s.cursor
    some { s with galaxy1 := some a.1, galaxy2 := some a.2.1, cursor := a.2.2,
                  camera := dolly M galaxy1 galaxy2 s.camera }
  | _, _ => none

/-- Frames of `tick()` in succession. -/
def run (M : Lib α) (rand : ℕ → α) : ℕ → State α → Option (State α)
  | 0, s => some s
  | n + 1, s => (tick M rand s).bind (run M rand n)

/-! ## Sample frames -/

/-- A galaxy object with the given identity, position array and object position, at
rotation zero. -/
def cloud (id : ℕ) (positions : List α) (position : Vector3 α) : Points α where
  id := id
  positions := positions
  colors := positions
  size := 0.01
  position := position
  rotation := ⟨0, 0, 0⟩

/-- A state holding the two given galaxy objects, with the camera where lines 162-164 put
it. -/
def frame (galaxy1 galaxy2 : Points α) : State α where
  galaxy1 := some galaxy1
  galaxy2 := some galaxy2
  scene := [galaxy1.id, galaxy2.id]
  disposedGeometries := []
  disposedMaterials := []
  nextId := galaxy1.id + galaxy2.id + 1
  cursor := 0
  camera := ⟨0, 3, 30⟩

/-! ## Golden-value example and library instance over the reals -/

/-- The parameter set of the regression example: one particle, radius 10, one branch, no
spin, no randomness, white inside, black outside (the example leaves `size` open). -/
def exampleParameters (size : α) : GalaxyParameters α where
  count := 1
  size := size
  radius := 10
  branches := 1
  spin := 0
  randomness := 0
  randomnessPower := 1
  insideColor := "#ffffff"
  outsideColor := "#000000"

/-- A random source fixed at 0.5. -/
def fixedRandom : ℕ → α :=
  fun _ => 0.5

/-- Value of a hexadecimal digit. -/
def hexDigit (c : Char) : ℕ :=
  if c.isDigit then c.toNat - 48 else if c.isLower then c.toNat - 87 else c.toNat - 55

/-- Value of a `#rrggbb` style: the digits after the first character. -/
def hexValue (style : String) : ℕ :=
  (style.toList.drop 1).foldl (fun n c => 16 * n + hexDigit c) 0

/-- The three.js `Color.setHex` on a `#rrggbb` style, channels taken as written. -/
def hexColor (style : String) : Color α :=
  ⟨((hexValue style / 65536 % 256 : ℕ) : α) / 255, ((hexValue style / 256 % 256 : ℕ) : α) / 255,
    ((hexValue style % 256 : ℕ) : α) / 255⟩

/-- The library over the real numbers, with the mathematical cosine, sine, power and square
root. -/
noncomputable def realLib : Lib ℝ where
  cos := Real.cos
  sin := Real.sin
  pow := fun b e => b ^ e
  sqrt := Real.sqrt
  PI := Real.pi
  Color := hexColor

/-! ## Theorems -/

theorem set_triple_append {β : Type} (A rest : List β) (a b c x y z : β) (n : ℕ)
    (hn : A.length = n * 3) :
    (((A ++ a :: b :: c :: rest).set (n * 3) x).set (n * 3 + 1) y).set (n * 3 + 2) z
      = (A ++ [x, y, z]) ++ rest := by
  rw [← hn]
  induction A with
  | nil => simp
  | cons h t ih => simp

theorem length_flatMap_triple {β : Type} (f : ℕ → List β) (hf : ∀ i, (f i).length = 3)
    (k : ℕ) : ((List.range k).flatMap f).length = k * 3 := by
  induction k with
  | zero => simp
  | succ k ih => rw [List.range_succ, List.flatMap_append, List.length_append, ih]; simp [hf]; ring

theorem getElem?_flatMap_triple {β : Type} (f : ℕ → List β) (hf : ∀ i, (f i).length = 3)
    (k i j : ℕ) (hi : i < k) (hj : j < 3) :
    ((List.range k).flatMap f)[i * 3 + j]? = (f i)[j]? := by
  induction k with
  | zero => omega
  | succ k ih =>
    rw [List.range_succ, List.flatMap_append]
    have hlen := length_flatMap_triple f hf k
    by_cases h : i < k
    · rw [List.getElem?_append_left (by omega)]
      exact ih h
    · have hik : i = k := by omega
      subst hik
      rw [List.getElem?_append_right (by omega), hlen]
      simp

theorem generate_invariant (M : Lib α) (rand : ℕ → α) (xOffset : α) (p : GalaxyParameters α)
    (cursor N k : ℕ) (hk : k ≤ N) :
    (List.range k).foldl (generateStep M rand xOffset p)
        (List.replicate (N * 3) 0, List.replicate (N * 3) 0, cursor)
      = ((List.range k).flatMap (positionTriple M rand xOffset p cursor)
            ++ List.replicate ((N - k) * 3) 0,
         (List.range k).flatMap (colorTriple M rand xOffset p cursor)
            ++ List.replicate ((N - k) * 3) 0,
         cursor + 7 * k) := by
  induction k with
  | zero => simp
  | succ k ih =>
    rw [List.range_succ, List.foldl_append, ih (by omega)]
    have hN : (N - k) * 3 = (N - (k + 1)) * 3 + 3 := by omega
    have h1 := length_flatMap_triple (positionTriple M rand xOffset p cursor)
      (fun _ => rfl) k
    have h2 := length_flatMap_triple (colorTriple M rand xOffset p cursor)
      (fun _ => rfl) k
    simp only [List.foldl_cons, List.foldl_nil, generateStep, hN, List.replicate_succ,
      List.flatMap_append, List.flatMap_singleton]
    rw [set_triple_append _ _ _ _ _ _ _ _ _ h1, set_triple_append _ _ _ _ _ _ _ _ _ h2]
    simp only [positionTriple, colorTriple, Prod.mk.injEq, List.flatMap_cons, List.flatMap_nil,
      List.append_nil, true_and]
    omega

theorem generateBuffers_eq (M : Lib α) (rand : ℕ → α) (xOffset : α) (p : GalaxyParameters α)
    (cursor : ℕ) :
    generateBuffers M rand xOffset p cursor
      = ((List.range p.count).flatMap (positionTriple M rand xOffset p cursor),
         (List.range p.count).flatMap (colorTriple M rand xOffset p cursor),
         cursor + 7 * p.count) := by
  unfold generateBuffers
  rw [generate_invariant M rand xOffset p cursor p.count p.count le_rfl]
  simp

/-- C2: for every parameter set, offset and random stream, the position buffer and the
colour buffer of `generateGalaxy` have length exactly `3 * count` (empty when `count = 0`),
each is the concatenation in index order of the triples written for the particles, and for
every `i < count` the entries `3i`, `3i+1`, `3i+2` of either buffer are the three values
written for particle `i`. -/
theorem generateGalaxy_buffers (M : Lib α) (rand : ℕ → α) (nextId cursor : ℕ) (xOffset : α)
    (p : GalaxyParameters α) :
    (generateGalaxy M rand nextId cursor xOffset p).1.positions.length = 3 * p.count ∧
    (generateGalaxy M rand nextId cursor xOffset p).1.colors.length = 3 * p.count ∧
    (generateGalaxy M rand nextId cursor xOffset p).1.positions
      = (List.range p.count).flatMap (positionTriple M rand xOffset p cursor) ∧
    (generateGalaxy M rand nextId cursor xOffset p).1.colors
      = (List.range p.count).flatMap (colorTriple M rand xOffset p cursor) ∧
    ∀ i, i < p.count → ∀ j, j < 3 →
      (generateGalaxy M rand nextId cursor xOffset p).1.positions[i * 3 + j]?
        = (positionTriple M rand xOffset p cursor i)[j]? ∧
      (generateGalaxy M rand nextId cursor xOffset p).1.colors[i * 3 + j]?
        = (colorTriple M rand xOffset p cursor i)[j]? := by
  have hp : ∀ i, (positionTriple M rand xOffset p cursor i).length = 3 := fun _ => rfl
  have hc : ∀ i, (colorTriple M rand xOffset p cursor i).length = 3 := fun _ => rfl
  simp only [generateGalaxy, generateBuffers_eq, true_and]
  refine ⟨?_, ?_, ?_⟩
  · rw [length_flatMap_triple _ hp]; ring
  · rw [length_flatMap_triple _ hc]; ring
  · intro i hi j hj
    exact ⟨getElem?_flatMap_triple _ hp _ _ _ hi hj, getElem?_flatMap_triple _ hc _ _ _ hi hj⟩

theorem generateGalaxy_colors_getElem? (M : Lib α) (rand : ℕ → α) (nextId cursor : ℕ)
    (xOffset : α) (p : GalaxyParameters α) (i j : ℕ) (hi : i < p.count) (hj : j < 3) :
    (generateGalaxy M rand nextId cursor xOffset p).1.colors[i * 3 + j]?
      = (colorTriple M rand xOffset p cursor i)[j]? := by
  simp only [generateGalaxy, generateBuffers_eq]
  exact getElem?_flatMap_triple (colorTriple M rand xOffset p cursor) (fun _ => rfl) _ _ _ hi hj

theorem generateGalaxy_positions_getElem? (M : Lib α) (rand : ℕ → α) (nextId cursor : ℕ)
    (xOffset : α) (p : GalaxyParameters α) (i j : ℕ) (hi : i < p.count) (hj : j < 3) :
    (generateGalaxy M rand nextId cursor xOffset p).1.positions[i * 3 + j]?
      = (positionTriple M rand xOffset p cursor i)[j]? := by
  simp only [generateGalaxy, generateBuffers_eq]
  exact getElem?_flatMap_triple (positionTriple M rand xOffset p cursor) (fun _ => rfl) _ _ _
    hi hj

/-- C3: with `parameters.radius > 0` and the radius draw `u` of particle `i` in `[0, 1]`
(so in particular in `[0, 1)`), `radius = u * parameters.radius` and
`t = radius / parameters.radius` satisfy `0 ≤ t ≤ 1`, and each colour channel written for
particle `i` equals `(1 - t) * inside + t * outside`; when `radius = 0` the colour written
is the inside colour, and when `radius = parameters.radius` it is the outside colour. -/
theorem generateGalaxy_color_convex (M : Lib α) (rand : ℕ → α) (nextId cursor : ℕ)
    (xOffset : α) (p : GalaxyParameters α) (i : ℕ) (hR : 0 < p.radius) (hi : i < p.count)
    (h0 : 0 ≤ rand (cursor + 7 * i)) (h1 : rand (cursor + 7 * i) ≤ 1) :
    let radius := rand (cursor + 7 * i) * p.radius
    let t := radius / p.radius
    let inside := M.Color p.insideColor
    let outside := M.Color p.outsideColor
    let colors := (generateGalaxy M rand nextId cursor xOffset p).1.colors
    (0 ≤ t ∧ t ≤ 1) ∧
    (colors[i * 3]? = some ((1 - t) * inside.r + t * outside.r) ∧
     colors[i * 3 + 1]? = some ((1 - t) * inside.g + t * outside.g) ∧
     colors[i * 3 + 2]? = some ((1 - t) * inside.b + t * outside.b)) ∧
    (radius = 0 →
      colors[i * 3]? = some inside.r ∧ colors[i * 3 + 1]? = some inside.g ∧
      colors[i * 3 + 2]? = some inside.b) ∧
    (radius = p.radius →
      colors[i * 3]? = some outside.r ∧ colors[i * 3 + 1]? = some outside.g ∧
      colors[i * 3 + 2]? = some outside.b) := by
  intro radius t inside outside colors
  have ht : t = rand (cursor + 7 * i) := by
    simp only [t, radius]; field_simp
  have e0 : colors[i * 3]? = some ((1 - t) * inside.r + t * outside.r) := by
    have := generateGalaxy_colors_getElem? M rand nextId cursor xOffset p i 0 hi (by omega)
    simp only [add_zero] at this
    rw [this]
    simp only [colorTriple, particle, Color.lerp, List.getElem?_cons_zero, Option.some.injEq]
    ring
  have e1 : colors[i * 3 + 1]? = some ((1 - t) * inside.g + t * outside.g) := by
    rw [generateGalaxy_colors_getElem? M rand nextId cursor xOffset p i 1 hi (by omega)]
    simp only [colorTriple, particle, Color.lerp, List.getElem?_cons_succ,
      List.getElem?_cons_zero, Option.some.injEq]
    ring
  have e2 : colors[i * 3 + 2]? = some ((1 - t) * inside.b + t * outside.b) := by
    rw [generateGalaxy_colors_getElem? M rand nextId cursor xOffset p i 2 hi (by omega)]
    simp only [colorTriple, particle, Color.lerp, List.getElem?_cons_succ,
      List.getElem?_cons_zero, Option.some.injEq]
    ring
  refine ⟨⟨by rw [ht]; exact h0, by rw [ht]; exact h1⟩, ⟨e0, e1, e2⟩, ?_, ?_⟩
  · intro hr
    have t0 : t = 0 := by simp only [t, hr, zero_div]
    rw [e0, e1, e2, t0]
    simp
  · intro hr
    have t1 : t = 1 := by simp only [t, hr]; exact div_self hR.ne'
    rw [e0, e1, e2, t1]
    simp

/-- C10: with every random draw fixed at 0.5, offset 0 and the example parameters (count 1,
radius 10, one branch, spin 0, randomness 0, randomnessPower 1, white inside, black
outside), `generateGalaxy` yields buffers of exactly one particle, at position `(5, 0, 0)`
with colour `(0.5, 0.5, 0.5)`, whatever the object counter and the number of draws already
consumed: the same result on every run.  The library is any one with `cos 0 = 1`,
`sin 0 = 0`, white `(1, 1, 1)` and black `(0, 0, 0)`. -/
theorem generateGalaxy_example (M : Lib α) (hcos : M.cos 0 = 1) (hsin : M.sin 0 = 0)
    (hwhite : M.Color "#ffffff" = ⟨1, 1, 1⟩) (hblack : M.Color "#000000" = ⟨0, 0, 0⟩)
    (size : α) (nextId cursor : ℕ) :
    (generateGalaxy M fixedRandom nextId cursor 0 (exampleParameters size)).1.positions
      = [5, 0, 0] ∧
    (generateGalaxy M fixedRandom nextId cursor 0 (exampleParameters size)).1.colors
      = [0.5, 0.5, 0.5] := by
  simp only [generateGalaxy, generateBuffers_eq]
  simp [exampleParameters, positionTriple, colorTriple, particle, fixedRandom, Color.lerp,
    hcos, hsin, hwhite, hblack, List.range_succ]
  norm_num

/-! ### The loops of the animator -/

theorem filter_lt_range (m len : ℕ) (h : m ≤ len) :
    (List.range len).filter (fun i => decide (i < m)) = List.range m := by
  induction len with
  | zero => simp at h; subst h; simp
  | succ len ih =>
    rw [List.range_succ, List.filter_append]
    by_cases hm : m ≤ len
    · rw [ih hm]
      have : ¬ len < m := by omega
      simp [this]
    · have hm2 : m = len + 1 := by omega
      subst hm2
      have e : (List.range len).filter (fun i => decide (i < len + 1)) = List.range len := by
        rw [List.filter_eq_self]
        intro a ha
        have := List.mem_range.mp ha
        simp; omega
      rw [e, List.range_succ]
      simp

theorem loopIndices_eq (array : List α) :
    loopIndices array = List.range ((array.length + 2) / 3) := by
  unfold loopIndices count
  rw [← filter_lt_range ((array.length + 2) / 3) array.length (by omega)]
  apply List.filter_congr
  intro i _
  have h3 : (0 : α) < 3 := by norm_num
  have e : ((i : α) < (array.length : α) / 3) ↔ i < (array.length + 2) / 3 := by
    rw [lt_div_iff₀ h3]
    have : ((i : α) * 3 < (array.length : α)) ↔ i * 3 < array.length := by
      rw [← Nat.cast_lt (α := α)]; push_cast; rfl
    rw [this]
    omega
  simp only [e]

theorem tick_eq (M : Lib α) (rand : ℕ → α) (s : State α) (g1 g2 : Points α)
    (h1 : s.galaxy1 = some g1) (h2 : s.galaxy2 = some g2) :
    tick M rand s
      = some { s with galaxy1 := some (animate M rand g1 g2 s.cursor).1,
                      galaxy2 := some (animate M rand g1 g2 s.cursor).2.1,
                      cursor := (animate M rand g1 g2 s.cursor).2.2,
                      camera := dolly M g1 g2 s.camera } := by
  simp only [tick, h1, h2]

/-- C5 (amended): for position buffers of `n1` and `n2` particles, every particle index the
two update loops use is within bounds of galaxy1's buffer, and all of them are within
bounds of galaxy2's buffer exactly when `n1 ≤ n2`; in particular no out-of-range index
occurs for clouds of equal particle count, as `createGalaxies` builds them. -/
theorem loops_inBounds (p1 p2 : List α) (n1 n2 : ℕ) (h1 : p1.length = n1 * 3)
    (h2 : p2.length = n2 * 3) :
    (∀ i ∈ loopIndices p1, inBounds p1 i) ∧
    ((∀ i ∈ loopIndices p1, inBounds p2 i) ↔ n1 ≤ n2) ∧
    (n1 = n2 → ∀ i ∈ loopIndices p1, inBounds p1 i ∧ inBounds p2 i) := by
  have hl : loopIndices p1 = List.range n1 := by
    rw [loopIndices_eq, h1]; congr 1; omega
  simp only [hl, List.mem_range, inBounds, particleIndices, List.mem_cons, List.mem_singleton,
    List.not_mem_nil, or_false, forall_eq_or_imp, forall_eq, h1, h2]
  refine ⟨fun i hi => by omega, ⟨fun h => ?_, fun h i hi => by omega⟩, fun h i hi => by omega⟩
  by_contra hn
  have := h (n1 - 1) (by omega)
  omega

theorem animate_position (M : Lib α) (rand : ℕ → α) (g1 g2 : Points α) (c : ℕ) :
    (animate M rand g1 g2 c).1.position = g1.position ∧
    (animate M rand g1 g2 c).2.1.position = g2.position := by
  unfold animate
  split <;> exact ⟨rfl, rfl⟩

theorem animate_rotation (M : Lib α) (rand : ℕ → α) (g1 g2 : Points α) (c : ℕ)
    (hc : colliding M g1 g2) :
    (animate M rand g1 g2 c).1.rotation.y = g1.rotation.y + 0.005 ∧
    (animate M rand g1 g2 c).2.1.rotation.y = g2.rotation.y - 0.005 := by
  simp only [animate, hc, if_true, and_self]

theorem colliding_congr (M : Lib α) (g1 g2 f1 f2 : Points α) (e1 : f1.position = g1.position)
    (e2 : f2.position = g2.position) : colliding M f1 f2 ↔ colliding M g1 g2 := by
  unfold colliding; rw [e1, e2]

theorem run_colliding (M : Lib α) (rand : ℕ → α) (n : ℕ) (s : State α) (g1 g2 : Points α)
    (h1 : s.galaxy1 = some g1) (h2 : s.galaxy2 = some g2) (hc : colliding M g1 g2) :
    ∃ t f1 f2, run M rand n s = some t ∧ t.galaxy1 = some f1 ∧ t.galaxy2 = some f2 ∧
      f1.position = g1.position ∧ f2.position = g2.position ∧
      f1.rotation.y = g1.rotation.y + 0.005 * n ∧
      f2.rotation.y = g2.rotation.y - 0.005 * n ∧
      (20 < s.camera.z →
        t.camera = ⟨s.camera.x * 0.99 ^ n, 3 + (s.camera.y - 3) * 0.99 ^ n,
          20 + (s.camera.z - 20) * 0.99 ^ n⟩) := by
  induction n generalizing s g1 g2 with
  | zero =>
    refine ⟨s, g1, g2, rfl, h1, h2, rfl, rfl, by simp, by simp, ?_⟩
    intro _; simp
  | succ n ih =>
    have ht := tick_eq M rand s g1 g2 h1 h2
    obtain ⟨p1, p2⟩ := animate_position M rand g1 g2 s.cursor
    obtain ⟨r1, r2⟩ := animate_rotation M rand g1 g2 s.cursor hc
    have hc2 := (colliding_congr M g1 g2 _ _ p1 p2).mpr hc
    obtain ⟨t, f1, f2, hrun, e1, e2, q1, q2, a1, a2, hcam⟩ :=
      ih { s with galaxy1 := some (animate M rand g1 g2 s.cursor).1,
                  galaxy2 := some (animate M rand g1 g2 s.cursor).2.1,
                  cursor := (animate M rand g1 g2 s.cursor).2.2,
                  camera := dolly M g1 g2 s.camera } _ _ rfl rfl hc2
    refine ⟨t, f1, f2, ?_, e1, e2, q1.trans p1, q2.trans p2, ?_, ?_, ?_⟩
    · simp only [run, ht, Option.some_bind]; exact hrun
    · rw [a1, r1]; push_cast; ring
    · rw [a2, r2]; push_cast; ring
    · intro hz
      have hd : dolly M g1 g2 s.camera = s.camera.lerp ⟨0, 3, 20⟩ 0.01 := by
        simp only [dolly, hc, gt_iff_lt, hz, and_self, if_true]
      have hz2 : 20 < (s.camera.lerp ⟨0, 3, 20⟩ 0.01).z := by
        simp only [Vector3.lerp]; linarith
      simp only [hd] at hcam
      rw [hcam hz2]
      simp only [Vector3.lerp, Vector3.mk.injEq]
      refine ⟨?_, ?_, ?_⟩ <;> ring

/-- C7: a frame of `tick` moves the camera only when the distance is below 10 and the camera
`z` is above 20, and then replaces the camera position `p` by `p + 0.01 * ((0, 3, 20) - p)`;
from any Colliding state with camera `z0 > 20`, every number `n` of frames runs to a state
that is again Colliding, whose camera `z` equals `20 + (z0 - 20) * 0.99 ^ n`, is strictly
greater than 20, and whose camera position is not the target `(0, 3, 20)`. -/
theorem camera_dolly (M : Lib α) (rand : ℕ → α) (s : State α) (g1 g2 : Points α)
    (h1 : s.galaxy1 = some g1) (h2 : s.galaxy2 = some g2) :
    (∃ t, tick M rand s = some t ∧
      t.camera = if colliding M g1 g2 ∧ s.camera.z > 20 then
          ⟨s.camera.x + 0.01 * (0 - s.camera.x), s.camera.y + 0.01 * (3 - s.camera.y),
            s.camera.z + 0.01 * (20 - s.camera.z)⟩
        else s.camera) ∧
    (colliding M g1 g2 → s.camera.z > 20 → ∀ n, ∃ t f1 f2,
      run M rand n s = some t ∧ t.galaxy1 = some f1 ∧ t.galaxy2 = some f2 ∧
      colliding M f1 f2 ∧
      t.camera.z = 20 + (s.camera.z - 20) * 0.99 ^ n ∧ t.camera.z > 20 ∧
      t.camera ≠ ⟨0, 3, 20⟩) := by
  constructor
  · refine ⟨_, tick_eq M rand s g1 g2 h1 h2, ?_⟩
    simp only [dolly, Vector3.lerp]
    split
    · simp only [Vector3.mk.injEq]; refine ⟨?_, ?_, ?_⟩ <;> ring
    · rfl
  · intro hc hz n
    obtain ⟨t, f1, f2, hrun, e1, e2, q1, q2, _, _, hcam⟩ :=
      run_colliding M rand n s g1 g2 h1 h2 hc
    have hz2 : t.camera.z = 20 + (s.camera.z - 20) * 0.99 ^ n := by rw [hcam hz]
    have hpos : (0 : α) < (s.camera.z - 20) * 0.99 ^ n :=
      mul_pos (sub_pos.mpr hz) (pow_pos (by norm_num) n)
    have hgt : t.camera.z > 20 := by rw [hz2]; linarith
    refine ⟨t, f1, f2, hrun, e1, e2, (colliding_congr M g1 g2 f1 f2 q1 q2).mpr hc, hz2, hgt, ?_⟩
    intro h
    rw [h] at hgt
    exact lt_irrefl _ hgt

theorem createGalaxies_first (M : Lib α) (rand : ℕ → α) (s : State α)
    (h1 : s.galaxy1 = none) (h2 : s.galaxy2 = none) (hS : ∀ x ∈ s.scene, x < s.nextId) :
    ∃ a b, (createGalaxies M rand s).galaxy1 = some a ∧
      (createGalaxies M rand s).galaxy2 = some b ∧
      a.id = s.nextId ∧ b.id = s.nextId + 1 ∧
      (createGalaxies M rand s).scene = s.scene ++ [s.nextId, s.nextId + 1] ∧
      (createGalaxies M rand s).nextId = s.nextId + 2 := by
  obtain ⟨g1, g2, sc, dg, dm, nid, cur, cam⟩ := s
  simp only at h1 h2 hS
  subst h1 h2
  refine ⟨_, _, rfl, rfl, rfl, rfl, ?_, rfl⟩
  have n1 : nid ∉ sc := fun h => lt_irrefl _ (hS _ h)
  have n2 : nid + 1 ∉ sc ++ [nid] := by
    intro h
    rcases List.mem_append.mp h with h | h
    · have := hS _ h; omega
    · simp at h
  simp only [createGalaxies, release, sceneAdd, generateGalaxy]
  rw [List.erase_of_not_mem n1, List.erase_of_not_mem n2]
  simp

theorem createGalaxies_again (M : Lib α) (rand : ℕ → α) (s : State α) (S : List ℕ)
    (f1 f2 : Points α) (h1 : s.galaxy1 = some f1) (h2 : s.galaxy2 = some f2)
    (hs : s.scene = S ++ [f1.id, f2.id]) (n1 : f1.id ∉ S) (n2 : f2.id ∉ S)
    (hS : ∀ x ∈ S, x < s.nextId) :
    ∃ a b, (createGalaxies M rand s).galaxy1 = some a ∧
      (createGalaxies M rand s).galaxy2 = some b ∧
      a.id = s.nextId ∧ b.id = s.nextId + 1 ∧
      (createGalaxies M rand s).scene = S ++ [s.nextId, s.nextId + 1] ∧
      (createGalaxies M rand s).nextId = s.nextId + 2 ∧
      (createGalaxies M rand s).disposedGeometries = f2.id :: f1.id :: s.disposedGeometries ∧
      (createGalaxies M rand s).disposedMaterials = f2.id :: f1.id :: s.disposedMaterials := by
  obtain ⟨g1, g2, sc, dg, dm, nid, cur, cam⟩ := s
  simp only at h1 h2 hs hS
  subst h1 h2 hs
  refine ⟨_, _, rfl, rfl, rfl, rfl, ?_, rfl, rfl, rfl⟩
  have m1 : nid ∉ S := fun h => lt_irrefl _ (hS _ h)
  have m2 : nid + 1 ∉ S ++ [nid] := by
    intro h
    rcases List.mem_append.mp h with h | h
    · have := hS _ h; omega
    · simp at h
  have e1 : (S ++ [f1.id, f2.id]).erase f1.id = S ++ [f2.id] := by
    rw [List.erase_append_right _ n1]; simp
  have e2 : (S ++ [f2.id]).erase f2.id = S := by
    rw [List.erase_append_right _ n2]; simp
  simp only [createGalaxies, release, sceneAdd, generateGalaxy]
  rw [e1, e2, List.erase_of_not_mem m1, List.erase_of_not_mem m2]
  simp

theorem createGalaxiesTimes_inv (M : Lib α) (rand : ℕ → α) (s0 : State α)
    (h1 : s0.galaxy1 = none) (h2 : s0.galaxy2 = none)
    (hS : ∀ x ∈ s0.scene, x < s0.nextId) (k : ℕ) :
    ∃ f1 f2, (createGalaxiesTimes M rand (k + 1) s0).galaxy1 = some f1 ∧
      (createGalaxiesTimes M rand (k + 1) s0).galaxy2 = some f2 ∧
      f1.id = s0.nextId + 2 * k ∧ f2.id = s0.nextId + 2 * k + 1 ∧
      (createGalaxiesTimes M rand (k + 1) s0).scene = s0.scene ++ [f1.id, f2.id] ∧
      (createGalaxiesTimes M rand (k + 1) s0).nextId = s0.nextId + 2 * k + 2 ∧
      ∀ j, j < 2 * k →
        s0.nextId + j ∈ (createGalaxiesTimes M rand (k + 1) s0).disposedGeometries ∧
        s0.nextId + j ∈ (createGalaxiesTimes M rand (k + 1) s0).disposedMaterials := by
  induction k with
  | zero =>
    obtain ⟨a, b, e1, e2, i1, i2, hs, hn⟩ := createGalaxies_first M rand s0 h1 h2 hS
    refine ⟨a, b, e1, e2, i1, i2, ?_, hn, fun j hj => by omega⟩
    rw [i1, i2]; exact hs
  | succ k ih =>
    obtain ⟨f1, f2, e1, e2, i1, i2, hs, hn, hd⟩ := ih
    have n1 : f1.id ∉ s0.scene := fun h => by have := hS _ h; omega
    have n2 : f2.id ∉ s0.scene := fun h => by have := hS _ h; omega
    have hS2 : ∀ x ∈ s0.scene, x < (createGalaxiesTimes M rand (k + 1) s0).nextId :=
      fun x hx => by have := hS x hx; omega
    obtain ⟨a, b, c1, c2, j1, j2, cs, cn, dg, dm⟩ :=
      createGalaxies_again M rand _ s0.scene f1 f2 e1 e2 hs n1 n2 hS2
    refine ⟨a, b, c1, c2, by rw [j1, hn]; ring, by rw [j2, hn]; ring, ?_, ?_, ?_⟩
    · rw [j1, j2]; exact cs
    · show (createGalaxies M rand _).nextId = _
      rw [cn, hn]; ring
    · intro j hj
      show _ ∈ (createGalaxies M rand _).disposedGeometries ∧
        _ ∈ (createGalaxies M rand _).disposedMaterials
      rw [dg, dm]
      by_cases hj2 : j < 2 * k
      · obtain ⟨d1, d2⟩ := hd j hj2
        exact ⟨List.mem_cons_of_mem _ (List.mem_cons_of_mem _ d1),
          List.mem_cons_of_mem _ (List.mem_cons_of_mem _ d2)⟩
      · by_cases hj3 : j = 2 * k
        · subst hj3; rw [← i1]; simp
        · have : j = 2 * k + 1 := by omega
          subst this
          have : s0.nextId + (2 * k + 1) = f2.id := by rw [i2]; ring
          rw [this]; simp

/-- C8: starting from a state with no galaxy (both variables `null`) whose scene holds only
objects created earlier, after the `k`-th of `k ≥ 1` successive calls of `createGalaxies`
the variables hold two distinct objects, the two created by that call (numbered by the
object counter as it stood before the call), the scene is the initial scene followed by
exactly these two, each occurring once; and the two galaxy objects held after any earlier
call `c` are no longer in the scene and have had their geometry and material disposed. -/
theorem createGalaxies_regeneration (M : Lib α) (rand : ℕ → α) (s0 : State α)
    (h1 : s0.galaxy1 = none) (h2 : s0.galaxy2 = none)
    (hS : ∀ x ∈ s0.scene, x < s0.nextId) (k : ℕ) (hk : 1 ≤ k) :
    ∃ f1 f2, (createGalaxiesTimes M rand k s0).galaxy1 = some f1 ∧
      (createGalaxiesTimes M rand k s0).galaxy2 = some f2 ∧
      f1.id = (createGalaxiesTimes M rand (k - 1) s0).nextId ∧
      f2.id = (createGalaxiesTimes M rand (k - 1) s0).nextId + 1 ∧
      (createGalaxiesTimes M rand k s0).scene = s0.scene ++ [f1.id, f2.id] ∧
      (createGalaxiesTimes M rand k s0).scene.count f1.id = 1 ∧
      (createGalaxiesTimes M rand k s0).scene.count f2.id = 1 ∧
      ∀ c, 1 ≤ c → c < k → ∃ e1 e2,
        (createGalaxiesTimes M rand c s0).galaxy1 = some e1 ∧
        (createGalaxiesTimes M rand c s0).galaxy2 = some e2 ∧
        e1.id ∉ (createGalaxiesTimes M rand k s0).scene ∧
        e2.id ∉ (createGalaxiesTimes M rand k s0).scene ∧
        e1.id ∈ (createGalaxiesTimes M rand k s0).disposedGeometries ∧
        e1.id ∈ (createGalaxiesTimes M rand k s0).disposedMaterials ∧
        e2.id ∈ (createGalaxiesTimes M rand k s0).disposedGeometries ∧
        e2.id ∈ (createGalaxiesTimes M rand k s0).disposedMaterials := by
  obtain ⟨m, rfl⟩ : ∃ m, k = m + 1 := ⟨k - 1, by omega⟩
  obtain ⟨f1, f2, e1, e2, i1, i2, hs, hn, hd⟩ := createGalaxiesTimes_inv M rand s0 h1 h2 hS m
  have hprev : (createGalaxiesTimes M rand (m + 1 - 1) s0).nextId = s0.nextId + 2 * m := by
    simp only [Nat.add_sub_cancel]
    cases m with
    | zero => rfl
    | succ j =>
      obtain ⟨_, _, _, _, _, _, _, hn2, _⟩ := createGalaxiesTimes_inv M rand s0 h1 h2 hS j
      rw [hn2]; ring
  have n1 : f1.id ∉ s0.scene := fun h => by have := hS _ h; omega
  have n2 : f2.id ∉ s0.scene := fun h => by have := hS _ h; omega
  have hne : f1.id ≠ f2.id := by omega
  refine ⟨f1, f2, e1, e2, by rw [hprev, i1], by rw [hprev, i2], hs, ?_, ?_, ?_⟩
  · rw [hs, List.count_append, List.count_eq_zero_of_not_mem n1]
    simp [List.count_cons, hne.symm]
  · rw [hs, List.count_append, List.count_eq_zero_of_not_mem n2]
    simp [List.count_cons, hne]
  · intro c hc1 hc2
    obtain ⟨j, rfl⟩ : ∃ j, c = j + 1 := ⟨c - 1, by omega⟩
    obtain ⟨a, b, c1, c2, j1, j2, _, _, _⟩ := createGalaxiesTimes_inv M rand s0 h1 h2 hS j
    have hmem : ∀ x, x ∈ s0.scene ++ [f1.id, f2.id] → x < s0.nextId ∨ x = f1.id ∨ x = f2.id := by
      intro x hx
      rcases List.mem_append.mp hx with h | h
      · exact Or.inl (hS x h)
      · simp at h; exact Or.inr h
    refine ⟨a, b, c1, c2, ?_, ?_, ?_, ?_, ?_, ?_⟩
    · rw [hs]; intro h; rcases hmem _ h with h | h | h <;> omega
    · rw [hs]; intro h; rcases hmem _ h with h | h | h <;> omega
    · rw [j1]; exact (hd (2 * j) (by omega)).1
    · rw [j1]; exact (hd (2 * j) (by omega)).2
    · have := (hd (2 * j + 1) (by omega)).1; rw [j2]; exact this
    · have := (hd (2 * j + 1) (by omega)).2; rw [j2]; exact this

/-! ### Concrete instances -/

theorem realLib_colliding_origin (id1 id2 : ℕ) (p1 p2 : List ℝ) :
    colliding realLib (cloud id1 p1 ⟨0, 0, 0⟩) (cloud id2 p2 ⟨0, 0, 0⟩) := by
  simp [colliding, cloud, Vector3.distanceTo, Vector3.distanceToSquared, realLib]

theorem fixedRandom_unit (k : ℕ) : (0 : ℝ) ≤ fixedRandom k ∧ (fixedRandom k : ℝ) < 1 := by
  simp only [fixedRandom]; norm_num

theorem hexColor_white : (hexColor "#ffffff" : Color ℝ) = ⟨1, 1, 1⟩ := by
  have : hexValue "#ffffff" = 16777215 := by decide
  simp [hexColor, this]

theorem hexColor_black : (hexColor "#000000" : Color ℝ) = ⟨0, 0, 0⟩ := by
  have : hexValue "#000000" = 0 := by decide
  simp [hexColor, this]

/-- C2, witness: the one particle of the example parameters. -/
theorem generateGalaxy_buffers_witness :
    (0 < (exampleParameters (1 : ℝ)).count ∧ 2 < 3) ∧
    (generateGalaxy realLib fixedRandom 0 0 0 (exampleParameters (1 : ℝ))).1.positions[0 * 3 + 2]?
      = (positionTriple realLib fixedRandom 0 (exampleParameters (1 : ℝ)) 0 0)[2]? ∧
    (generateGalaxy realLib fixedRandom 0 0 0 (exampleParameters (1 : ℝ))).1.colors[0 * 3 + 2]?
      = (colorTriple realLib fixedRandom 0 (exampleParameters (1 : ℝ)) 0 0)[2]? :=
  ⟨⟨Nat.one_pos, by decide⟩,
    (generateGalaxy_buffers realLib fixedRandom 0 0 0 (exampleParameters (1 : ℝ))).2.2.2.2
      0 Nat.one_pos 2 (by decide)⟩

/-- C5, counterexample: galaxy1 with two particles and galaxy2 with one, in a Colliding
frame; the loops reach index 1, which is out of range on galaxy2's buffer. -/
theorem loops_out_of_range :
    colliding realLib (cloud 0 [0, 0, 0, 0, 0, 0] ⟨0, 0, 0⟩) (cloud 1 [0, 0, 0] ⟨0, 0, 0⟩) ∧
    1 ∈ loopIndices ([0, 0, 0, 0, 0, 0] : List ℝ) ∧
    ¬ inBounds ([0, 0, 0] : List ℝ) 1 := by
  refine ⟨realLib_colliding_origin 0 1 _ _, ?_, ?_⟩
  · rw [loopIndices_eq]; simp
  · simp [inBounds, particleIndices]

/-- C5, witness: two buffers of one particle each. -/
theorem loops_inBounds_witness :
    (([1, 2, 2] : List ℝ).length = 1 * 3 ∧ ([3, 0, 4] : List ℝ).length = 1 * 3) ∧
    ∀ i ∈ loopIndices ([1, 2, 2] : List ℝ),
      inBounds ([1, 2, 2] : List ℝ) i ∧ inBounds ([3, 0, 4] : List ℝ) i :=
  ⟨⟨rfl, rfl⟩, (loops_inBounds ([1, 2, 2] : List ℝ) [3, 0, 4] 1 1 rfl rfl).2.2 rfl⟩

/-- C3, witness: the example parameters with the radius draw 0.5; the red channel written
for the one particle is 0.5. -/
theorem generateGalaxy_color_convex_witness :
    ((0 : ℝ) < (exampleParameters (1 : ℝ)).radius ∧ 0 < (exampleParameters (1 : ℝ)).count ∧
      (0 : ℝ) ≤ fixedRandom (0 + 7 * 0) ∧ (fixedRandom (0 + 7 * 0) : ℝ) ≤ 1) ∧
    (generateGalaxy realLib fixedRandom 0 0 0 (exampleParameters (1 : ℝ))).1.colors[0 * 3]?
      = some (0.5 : ℝ) := by
  have hR : (0 : ℝ) < (exampleParameters (1 : ℝ)).radius := by
    simp only [exampleParameters]; norm_num
  have h0 : (0 : ℝ) ≤ fixedRandom (0 + 7 * 0) := (fixedRandom_unit _).1
  have h1 : (fixedRandom (0 + 7 * 0) : ℝ) ≤ 1 := (fixedRandom_unit _).2.le
  refine ⟨⟨hR, Nat.one_pos, h0, h1⟩, ?_⟩
  have h := (generateGalaxy_color_convex realLib fixedRandom 0 0 0 (exampleParameters (1 : ℝ)) 0
    hR Nat.one_pos h0 h1).2.1.1
  rw [h]
  simp only [exampleParameters, fixedRandom, realLib, hexColor_white, hexColor_black]
  norm_num

/-- C7, witness: a Colliding frame with the camera at its initial `(0, 3, 30)`; after two
frames the camera `z` is `20 + 10 * 0.99 ^ 2`, above 20. -/
theorem camera_dolly_witness :
    (colliding realLib (cloud 0 [1, 2, 2] ⟨0, 0, 0⟩) (cloud 1 [3, 0, 4] ⟨0, 0, 0⟩) ∧
      (frame (cloud 0 [1, 2, 2] ⟨0, 0, 0⟩) (cloud 1 [3, 0, 4] ⟨0, 0, 0⟩) : State ℝ).camera.z
        > 20) ∧
    ∃ t, run realLib fixedRandom 2
          (frame (cloud 0 [1, 2, 2] ⟨0, 0, 0⟩) (cloud 1 [3, 0, 4] ⟨0, 0, 0⟩)) = some t ∧
      t.camera.z = 20 + (30 - 20) * 0.99 ^ 2 ∧ t.camera.z > 20 ∧ t.camera ≠ ⟨0, 3, 20⟩ := by
  have hc := realLib_colliding_origin 0 1 [1, 2, 2] [3, 0, 4]
  have hz : (frame (cloud 0 [1, 2, 2] ⟨0, 0, 0⟩) (cloud 1 [3, 0, 4] ⟨0, 0, 0⟩) :
      State ℝ).camera.z > 20 := by
    simp only [frame]; norm_num
  refine ⟨⟨hc, hz⟩, ?_⟩
  obtain ⟨t, f1, f2, hrun, _, _, _, h1, h2, h3⟩ :=
    (camera_dolly realLib fixedRandom
      (frame (cloud 0 [1, 2, 2] ⟨0, 0, 0⟩) (cloud 1 [3, 0, 4] ⟨0, 0, 0⟩)) _ _ rfl rfl).2 hc hz 2
  exact ⟨t, hrun, h1, h2, h3⟩

/-- C8, witness: two calls from the state at module load; the scene then holds exactly the
two objects of the second call. -/
theorem createGalaxies_regeneration_witness :
    ((initial : State ℝ).galaxy1 = none ∧ (initial : State ℝ).galaxy2 = none ∧
      (∀ x ∈ (initial : State ℝ).scene, x < (initial : State ℝ).nextId) ∧ 1 ≤ 2) ∧
    ∃ f1 f2, (createGalaxiesTimes realLib fixedRandom 2 initial).galaxy1 = some f1 ∧
      (createGalaxiesTimes realLib fixedRandom 2 initial).galaxy2 = some f2 ∧
      (createGalaxiesTimes realLib fixedRandom 2 initial).scene = [f1.id, f2.id] := by
  have hS : ∀ x ∈ (initial : State ℝ).scene, x < (initial : State ℝ).nextId := by
    intro x hx; simp [initial] at hx
  refine ⟨⟨rfl, rfl, hS, by decide⟩, ?_⟩
  obtain ⟨f1, f2, e1, e2, _, _, hs, _⟩ :=
    createGalaxies_regeneration realLib fixedRandom initial rfl rfl hS 2 (by decide)
  exact ⟨f1, f2, e1, e2, by rw [hs]; rfl⟩

/-- C10, witness: the real library satisfies the four conditions, and the example yields
`(5, 0, 0)` and `(0.5, 0.5, 0.5)`. -/
theorem generateGalaxy_example_witness :
    (realLib.cos 0 = 1 ∧ realLib.sin 0 = 0 ∧ realLib.Color "#ffffff" = ⟨1, 1, 1⟩ ∧
      realLib.Color "#000000" = ⟨0, 0, 0⟩) ∧
    (generateGalaxy realLib fixedRandom 0 0 0 (exampleParameters 1)).1.positions = [5, 0, 0] ∧
    (generateGalaxy realLib fixedRandom 0 0 0 (exampleParameters 1)).1.colors
      = [0.5, 0.5, 0.5] :=
  ⟨⟨Real.cos_zero, Real.sin_zero, hexColor_white, hexColor_black⟩,
    generateGalaxy_example realLib Real.cos_zero Real.sin_zero hexColor_white hexColor_black
      1 0 0⟩

end Galaxy
